import Mathlib

/-!
Verification development for the markbox blogging engine (src/markbox.py).

The repository is a small content-publishing server: a Dropbox OAuth
connect/token-persistence flow (`Dropbox.connect`), a remote content lister
(`Dropbox.listing`), a memoizing handler decorator (`Cache.cached`) and a
single-post handler with error mapping (`Markbox.default`).  External
collaborators (the Dropbox session, the markdown converter, the
natural-language date parser, the template engine) are modelled as oracle
parameters; everything else is translated directly from the source.
-/

/-- Key-value store modelling the memcache backend (pylibmc / mockcache
client): `get` yields `none` for a missing key, `set` overwrites, `delete`
removes.  Represented as an association list. -/
structure Store where
  entries : List (String × String)
deriving Repr, DecidableEq

def Store.get (s : Store) (k : String) : Option String :=
  (s.entries.find? (fun p => p.1 == k)).map (fun p => p.2)

def Store.set (s : Store) (k v : String) : Store :=
  ⟨(k, v) :: s.entries.filter (fun p => p.1 != k)⟩

def Store.delete (s : Store) (k : String) : Store :=
  ⟨s.entries.filter (fun p => p.1 != k)⟩

def Store.empty : Store := ⟨[]⟩

/-- Python truthiness of an optional string: `None` and the empty string
are falsy, any other string is truthy. -/
def truthy : Option String → Bool
  | none => false
  | some s => !(s == "")

/-- Python short-circuit `a or b` on optional strings: returns `a` when it
is truthy, otherwise `b`. -/
def pyOr (a b : Option String) : Option String :=
  if truthy a then a else b

/-- I/O failure raised by a bare `open`: the file is missing or
unreadable. -/
inductive FileErr where
  | ioError
deriving Repr, DecidableEq

/-- Local filesystem: file name to contents. -/
structure Fs where
  files : List (String × String)
deriving Repr, DecidableEq

/-- Bare `open(fname).read()`: raises (modelled as `.error`) when the file
is missing. -/
def openRead (fs : Fs) (fname : String) : Except FileErr String :=
  match (fs.files.find? (fun p => p.1 == fname)).map (fun p => p.2) with
  | some c => Except.ok c
  | none => Except.error FileErr.ioError

/-- Module-level `read_file` (markbox.py lines 25-30): wraps the bare open
in try/except IOError and returns `None` on failure. -/
def read_file (fs : Fs) (fname : String) : Option String :=
  match openRead fs fname with
  | Except.ok c => some c
  | Except.error _ => none

/-- The `open(fname, "w")` + `write` pattern used by `connect` for the two
durable token files. -/
def writeFile (fs : Fs) (fname c : String) : Fs :=
  ⟨(fname, c) :: fs.files.filter (fun p => p.1 != fname)⟩

/-- Query-string (kwargs) lookup. -/
def qget (q : List (String × String)) (k : String) : Option String :=
  (q.find? (fun p => p.1 == k)).map (fun p => p.2)

/-- Python `k in kwargs` on the query string. -/
def qcontains (q : List (String × String)) (k : String) : Bool :=
  q.any (fun p => p.1 == k)

/-- An OAuth token pair as returned by the Dropbox session (`.key` and
`.secret` attributes). -/
structure OAuthToken where
  key : String
  secret : String
deriving Repr, DecidableEq

/-- External Dropbox session collaborator: the outcomes of
`obtain_request_token`, `obtain_access_token` (applied to the cached
request-token pair, either component possibly absent) and
`build_authorize_url`. -/
structure RemoteSession where
  reqToken : OAuthToken
  accessToken : Option String → Option String → OAuthToken
  authorizeUrl : OAuthToken → String → String

/-- Network handshake calls `connect` can make against the session. -/
inductive NetCall where
  | obtainRequestToken
  | obtainAccessToken
deriving Repr, DecidableEq

/-- Result of a `connect` call: either the client ends up bound
(Authorized), or a `cherrypy.HTTPRedirect` is raised with the given URL. -/
inductive ConnectResult where
  | authorized
  | redirect (url : String)
deriving Repr, DecidableEq

/-- Full outcome of `connect`: result, bound client (the token pair held
by the session of the bound `DropboxClient`, `none` when unbound), cache
state, filesystem state and the handshake calls made. -/
structure ConnectOut where
  res : ConnectResult
  client : Option OAuthToken
  cache : Store
  fs : Fs
  calls : List NetCall
deriving Repr, DecidableEq

/-- Dropbox.connect (markbox.py lines 207-233).  When a client is already
bound it is a no-op; otherwise it resumes from cache-or-file tokens,
completes a callback exchange, or stores a request token and raises a
redirect to the authorization URL built on the current request URL. -/
def Dropbox.connect (sess : RemoteSession) (currentUrl : String)
    (client : Option OAuthToken) (cache : Store) (fs : Fs)
    (query : List (String × String)) : ConnectOut :=
  match client with
  | some c => ⟨ConnectResult.authorized, some c, cache, fs, []⟩
  | none =>
    let s_token := pyOr (cache.get "s_token") (read_file fs ".s_token")
    let s_token_secret :=
      pyOr (cache.get "s_token_secret") (read_file fs ".s_token_secret")
    if truthy s_token && truthy s_token_secret then
      ⟨ConnectResult.authorized,
        some ⟨s_token.getD "", s_token_secret.getD ""⟩, cache, fs, []⟩
    else if qcontains query "oauth_token" then
      let tok := sess.accessToken (cache.get "r_token") (cache.get "r_token_secret")
      let cache1 := (cache.set "s_token" tok.key).set "s_token_secret" tok.secret
      let fs1 := writeFile (writeFile fs ".s_token" tok.key) ".s_token_secret" tok.secret
      let cache2 := (cache1.delete "r_token").delete "r_token_secret"
      ⟨ConnectResult.authorized, some tok, cache2, fs1, [NetCall.obtainAccessToken]⟩
    else
      let req := sess.reqToken
      let cache1 := (cache.set "r_token" req.key).set "r_token_secret" req.secret
      ⟨ConnectResult.redirect (sess.authorizeUrl req currentUrl),
        none, cache1, fs, [NetCall.obtainRequestToken]⟩

/-- Output of the external markdown converter on one file: the rendered
HTML and the `Meta` mapping (each metadata key to its first value, the
`[0]` indexing of the source). -/
structure MdResult where
  html : String
  meta : List (String × String)
deriving Repr, DecidableEq

/-- A remote file as seen by `listing`: its path and the raw contents
fetched from the client. -/
structure RemoteFile where
  path : String
  cont : String
deriving Repr, DecidableEq

/-- Lookup in the markdown `Meta` mapping (`"title" in mdown.Meta`). -/
def metaGet (m : List (String × String)) (k : String) : Option String :=
  (m.find? (fun p => p.1 == k)).map (fun p => p.2)

/-- A render-ready post record produced by `listing`. -/
structure Post where
  path : String
  title : String
  date : Int
  html : String
deriving Repr, DecidableEq

/-- The per-file body of the `listing` loop: when the parsed metadata has
both a title and a date, build the post record (path minus the three-char
".md" extension, parsed date); otherwise the file is logged and skipped. -/
def postOfFile (markdown : String → MdResult) (parseDate : String → Int)
    (f : RemoteFile) : Option Post :=
  let md := markdown f.cont
  match metaGet md.meta "title", metaGet md.meta "date" with
  | some t, some d => some ⟨f.path.dropRight 3, t, parseDate d, md.html⟩
  | _, _ => none

/-- Dropbox.listing (markbox.py lines 181-199): collect the qualifying
posts, sort ascending by the parsed date (Python `sorted` is a stable
mergesort) and reverse. -/
def Dropbox.listing (markdown : String → MdResult) (parseDate : String → Int)
    (files : List RemoteFile) : List Post :=
  let posts := files.filterMap (postOfFile markdown parseDate)
  (posts.mergeSort (fun a b => a.date ≤ b.date)).reverse

/-- Guard of the invalidation branch of the cached wrapper (markbox.py
line 45): the `uncache_key` query parameter is present and equals the
configured secret.  In Python a string never equals `None`, so an absent
secret (`none`) never matches. -/
def uncacheHit (uncache_key : Option String)
    (kwargs : List (String × String)) : Bool :=
  match qget kwargs "uncache_key" with
  | some v => some v == uncache_key
  | none => false

/-- Outcome of one call to the wrapper built by `Cache.cached`: the
returned content, the backend afterward, whether the wrapped handler was
invoked, and whether the delete branch ran. -/
structure CachedOut where
  content : String
  backend : Store
  invoked : Bool
  deleted : Bool
deriving Repr, DecidableEq

/-- Cache.cached's wrapper (markbox.py lines 41-55).  On an invalidation
hit the entry is deleted and `content` starts as `None`; otherwise
`content` is the backend lookup.  `if not content` (Python truthiness:
`None` and `""` are falsy) decides whether the handler runs; the result is
stored unconditionally. -/
def Cache.cached (uncache_key : Option String) (backend : Store)
    (ck : String) (kwargs : List (String × String)) (fn : Unit → String) :
    CachedOut :=
  let hit := uncacheHit uncache_key kwargs
  let backend1 := if hit then backend.delete ck else backend
  let content0 : Option String := if hit then none else backend1.get ck
  if truthy content0 then
    ⟨content0.getD "", backend1.set ck (content0.getD ""), false, hit⟩
  else
    let r := fn ()
    ⟨r, backend1.set ck r, true, hit⟩

/-- Filtering by a weaker predicate does not change the first match. -/
theorem find?_filter_of_imp {α : Type} (p q : α → Bool)
    (h : ∀ x, p x = true → q x = true) :
    ∀ l : List α, (l.filter q).find? p = l.find? p := by
  intro l
  induction l with
  | nil => rfl
  | cons a t ih =>
    by_cases hq : q a = true
    · rw [List.filter_cons_of_pos hq]
      by_cases hp : p a = true
      · rw [List.find?_cons_of_pos _ hp, List.find?_cons_of_pos _ hp]
      · rw [List.find?_cons_of_neg _ hp, List.find?_cons_of_neg _ hp, ih]
    · rw [List.filter_cons_of_neg (by simpa using hq)]
      have hp : ¬ p a = true := fun hpa => hq (h a hpa)
      rw [List.find?_cons_of_neg _ hp, ih]

/-- The predicate used by the association-list lookups respects key
inequality: an entry kept by a delete/overwrite filter on key `k2` still
matches lookups of a different key `k1`. -/
theorem keep_of_match {k1 k2 : String} (h : k1 ≠ k2) :
    ∀ x : String × String, (x.1 == k1) = true → (x.1 != k2) = true := by
  intro x hx
  simp only [beq_iff_eq] at hx
  simp [bne, hx, h]

theorem Store.get_set_self (s : Store) (k v : String) :
    (s.set k v).get k = some v := by
  unfold Store.get Store.set
  dsimp only
  rw [List.find?_cons_of_pos _ (by simp)]
  rfl

theorem Store.get_set_ne (s : Store) (k k' v : String) (h : k ≠ k') :
    (s.set k' v).get k = s.get k := by
  unfold Store.get Store.set
  dsimp only
  rw [List.find?_cons_of_neg _ (by simp [Ne.symm h]),
    find?_filter_of_imp _ _ (keep_of_match h)]

theorem Store.get_delete_self (s : Store) (k : String) :
    (s.delete k).get k = none := by
  unfold Store.get Store.delete
  dsimp only
  rw [Option.map_eq_none', List.find?_eq_none]
  intro x hx
  simp only [List.mem_filter, bne_iff_ne, ne_eq] at hx
  simp [hx.2]

theorem Store.get_delete_ne (s : Store) (k k' : String) (h : k ≠ k') :
    (s.delete k').get k = s.get k := by
  unfold Store.get Store.delete
  dsimp only
  rw [find?_filter_of_imp _ _ (keep_of_match h)]

theorem Store.get_empty (k : String) : Store.empty.get k = none := rfl

theorem read_file_write_self (fs : Fs) (f c : String) :
    read_file (writeFile fs f c) f = some c := by
  unfold read_file openRead writeFile
  dsimp only
  rw [List.find?_cons_of_pos _ (by simp)]
  rfl

theorem read_file_write_ne (fs : Fs) (f f' c : String) (h : f ≠ f') :
    read_file (writeFile fs f' c) f = read_file fs f := by
  unfold read_file openRead writeFile
  dsimp only
  rw [List.find?_cons_of_neg _ (by simp [Ne.symm h]),
    find?_filter_of_imp _ _ (keep_of_match h)]

/-- Remote error (`dropbox.rest.ErrorResponse`) with its HTTP status. -/
structure ErrorResponse where
  status : Nat
deriving Repr, DecidableEq

/-- Result of the single-post handler: a rendered page, a raised
`cherrypy.HTTPError`, or the generic diagnostic page built by
`dropbox_error`. -/
inductive HandlerResult where
  | page (html : String)
  | httpError (code : Nat) (msg : String)
  | errorPage (html : String)
deriving Repr, DecidableEq

/-- Markbox.default (markbox.py lines 127-143): fetch the post source and
render it; a remote error with status 404 raises HTTPError 404, any other
remote error yields the generic diagnostic page. -/
def Markbox.default (fetch : Except ErrorResponse String)
    (render : String → String) (diag : ErrorResponse → String) :
    HandlerResult :=
  match fetch with
  | Except.ok src => HandlerResult.page (render src)
  | Except.error e =>
    if e.status == 404 then HandlerResult.httpError 404 "File not found"
    else HandlerResult.errorPage (diag e)

/-- C1: with an unbound client, an empty fast cache and both durable token
files holding a valid (nonempty) pair, `connect` reads the pair from the
files, binds the session with it, and reaches the Authorized state without
raising a redirect and without making any handshake call. -/
theorem connect_resumes_from_durable_files
    (sess : RemoteSession) (currentUrl : String) (cache : Store) (fs : Fs)
    (query : List (String × String)) (t s : String)
    (hc1 : cache.get "s_token" = none)
    (hc2 : cache.get "s_token_secret" = none)
    (hf1 : read_file fs ".s_token" = some t)
    (hf2 : read_file fs ".s_token_secret" = some s)
    (ht : t ≠ "") (hs : s ≠ "") :
    Dropbox.connect sess currentUrl none cache fs query =
      ⟨ConnectResult.authorized, some ⟨t, s⟩, cache, fs, []⟩ := by
  unfold Dropbox.connect
  simp [pyOr, truthy, hc1, hc2, hf1, hf2, ht, hs]

/-- Witness for C1 at a concrete session, filesystem and query. -/
theorem connect_resumes_from_durable_files_witness :
    Dropbox.connect
      ⟨⟨"RK", "RS"⟩, fun _ _ => ⟨"AK", "AS"⟩, fun _ u => u⟩ "http://x/"
      none Store.empty ⟨[(".s_token", "T"), (".s_token_secret", "S")]⟩ [] =
      ⟨ConnectResult.authorized, some ⟨"T", "S"⟩, Store.empty,
        ⟨[(".s_token", "T"), (".s_token_secret", "S")]⟩, []⟩ :=
  connect_resumes_from_durable_files _ _ _ _ _ _ _
    (by decide) (by decide) (by decide) (by decide) (by decide) (by decide)

/-- C2: with no persisted AccessCredential pair (neither cache nor durable
files), a query carrying `oauth_token` and a RequestCredential stored in
the cache, `connect` exchanges the stored RequestCredential for an
AccessCredential, persists its key and secret to the fast cache and to the
two durable files, deletes the RequestCredential entries from the cache,
and ends Authorized. -/
theorem connect_callback_exchange
    (sess : RemoteSession) (currentUrl : String) (cache : Store) (fs : Fs)
    (query : List (String × String)) (rk rs : String)
    (hc1 : cache.get "s_token" = none)
    (hc2 : cache.get "s_token_secret" = none)
    (hf1 : read_file fs ".s_token" = none)
    (hf2 : read_file fs ".s_token_secret" = none)
    (hq : qcontains query "oauth_token" = true)
    (hr1 : cache.get "r_token" = some rk)
    (hr2 : cache.get "r_token_secret" = some rs) :
    (Dropbox.connect sess currentUrl none cache fs query).res
        = ConnectResult.authorized ∧
    (Dropbox.connect sess currentUrl none cache fs query).client
        = some (sess.accessToken (some rk) (some rs)) ∧
    (Dropbox.connect sess currentUrl none cache fs query).cache.get "s_token"
        = some (sess.accessToken (some rk) (some rs)).key ∧
    (Dropbox.connect sess currentUrl none cache fs query).cache.get "s_token_secret"
        = some (sess.accessToken (some rk) (some rs)).secret ∧
    read_file (Dropbox.connect sess currentUrl none cache fs query).fs ".s_token"
        = some (sess.accessToken (some rk) (some rs)).key ∧
    read_file (Dropbox.connect sess currentUrl none cache fs query).fs ".s_token_secret"
        = some (sess.accessToken (some rk) (some rs)).secret ∧
    (Dropbox.connect sess currentUrl none cache fs query).cache.get "r_token"
        = none ∧
    (Dropbox.connect sess currentUrl none cache fs query).cache.get "r_token_secret"
        = none ∧
    (Dropbox.connect sess currentUrl none cache fs query).calls
        = [NetCall.obtainAccessToken] := by
  have hout : Dropbox.connect sess currentUrl none cache fs query =
      ⟨ConnectResult.authorized, some (sess.accessToken (some rk) (some rs)),
        (((cache.set "s_token" (sess.accessToken (some rk) (some rs)).key).set
            "s_token_secret" (sess.accessToken (some rk) (some rs)).secret).delete
              "r_token").delete "r_token_secret",
        writeFile (writeFile fs ".s_token" (sess.accessToken (some rk) (some rs)).key)
          ".s_token_secret" (sess.accessToken (some rk) (some rs)).secret,
        [NetCall.obtainAccessToken]⟩ := by
    unfold Dropbox.connect
    simp [pyOr, truthy, hc1, hc2, hf1, hf2, hq, hr1, hr2]
  rw [hout]
  refine ⟨rfl, rfl, ?_, ?_, ?_, ?_, ?_, ?_, rfl⟩
  · rw [Store.get_delete_ne _ _ _ (by decide), Store.get_delete_ne _ _ _ (by decide),
      Store.get_set_ne _ _ _ _ (by decide), Store.get_set_self]
  · rw [Store.get_delete_ne _ _ _ (by decide), Store.get_delete_ne _ _ _ (by decide),
      Store.get_set_self]
  · rw [read_file_write_ne _ _ _ _ (by decide), read_file_write_self]
  · rw [read_file_write_self]
  · rw [Store.get_delete_ne _ _ _ (by decide), Store.get_delete_self]
  · rw [Store.get_delete_self]

/-- Witness for C2 at a concrete cache, query and session. -/
theorem connect_callback_exchange_witness :
    (Dropbox.connect ⟨⟨"RK", "RS"⟩, fun _ _ => ⟨"AK", "AS"⟩, fun _ u => u⟩
        "http://x/" none ⟨[("r_token", "rk"), ("r_token_secret", "rs")]⟩
        ⟨[]⟩ [("oauth_token", "rk")]).res = ConnectResult.authorized ∧
    (Dropbox.connect ⟨⟨"RK", "RS"⟩, fun _ _ => ⟨"AK", "AS"⟩, fun _ u => u⟩
        "http://x/" none ⟨[("r_token", "rk"), ("r_token_secret", "rs")]⟩
        ⟨[]⟩ [("oauth_token", "rk")]).cache.get "r_token" = none :=
  have h := connect_callback_exchange
    ⟨⟨"RK", "RS"⟩, fun _ _ => ⟨"AK", "AS"⟩, fun _ u => u⟩ "http://x/"
    ⟨[("r_token", "rk"), ("r_token_secret", "rs")]⟩ ⟨[]⟩
    [("oauth_token", "rk")] "rk" "rs"
    (by decide) (by decide) (by decide) (by decide) (by decide) (by decide) (by decide)
  ⟨h.1, h.2.2.2.2.2.2.1⟩

/-- C3: with no persisted AccessCredential pair and no `oauth_token`
callback parameter in the query, `connect` obtains a fresh
RequestCredential, persists its key and secret to the fast cache only (the
filesystem is unchanged), and raises a redirect whose URL is the
authorization URL built on the current request URL; the client stays
unbound. -/
theorem connect_starts_handshake_redirect
    (sess : RemoteSession) (currentUrl : String) (cache : Store) (fs : Fs)
    (query : List (String × String))
    (hc1 : cache.get "s_token" = none)
    (hc2 : cache.get "s_token_secret" = none)
    (hf1 : read_file fs ".s_token" = none)
    (hf2 : read_file fs ".s_token_secret" = none)
    (hq : qcontains query "oauth_token" = false) :
    (Dropbox.connect sess currentUrl none cache fs query).res
        = ConnectResult.redirect (sess.authorizeUrl sess.reqToken currentUrl) ∧
    (Dropbox.connect sess currentUrl none cache fs query).client = none ∧
    (Dropbox.connect sess currentUrl none cache fs query).cache.get "r_token"
        = some sess.reqToken.key ∧
    (Dropbox.connect sess currentUrl none cache fs query).cache.get "r_token_secret"
        = some sess.reqToken.secret ∧
    (Dropbox.connect sess currentUrl none cache fs query).fs = fs ∧
    (Dropbox.connect sess currentUrl none cache fs query).calls
        = [NetCall.obtainRequestToken] := by
  have hout : Dropbox.connect sess currentUrl none cache fs query =
      ⟨ConnectResult.redirect (sess.authorizeUrl sess.reqToken currentUrl), none,
        (cache.set "r_token" sess.reqToken.key).set "r_token_secret" sess.reqToken.secret,
        fs, [NetCall.obtainRequestToken]⟩ := by
    unfold Dropbox.connect
    simp [pyOr, truthy, hc1, hc2, hf1, hf2, hq]
  rw [hout]
  refine ⟨rfl, rfl, ?_, ?_, rfl, rfl⟩
  · rw [Store.get_set_ne _ _ _ _ (by decide), Store.get_set_self]
  · rw [Store.get_set_self]

/-- Witness for C3 at a concrete session on a first-ever run (no cache
entries, no files, empty query). -/
theorem connect_starts_handshake_redirect_witness :
    (Dropbox.connect ⟨⟨"RK", "RS"⟩, fun _ _ => ⟨"AK", "AS"⟩,
        fun tk u => tk.key ++ "|" ++ u⟩ "http://x/" none Store.empty ⟨[]⟩ []).res
      = ConnectResult.redirect "RK|http://x/" ∧
    (Dropbox.connect ⟨⟨"RK", "RS"⟩, fun _ _ => ⟨"AK", "AS"⟩,
        fun tk u => tk.key ++ "|" ++ u⟩ "http://x/" none Store.empty ⟨[]⟩ []).client
      = none :=
  have h := connect_starts_handshake_redirect
    ⟨⟨"RK", "RS"⟩, fun _ _ => ⟨"AK", "AS"⟩, fun tk u => tk.key ++ "|" ++ u⟩
    "http://x/" Store.empty ⟨[]⟩ []
    (by decide) (by decide) (by decide) (by decide) (by decide)
  ⟨h.1, h.2.1⟩

/-- C4: the sequence returned by `listing` is sorted descending by the
parsed date: every earlier element of the output has a parsed timestamp
greater than or equal to every later one (so in particular for each
consecutive pair). -/
theorem listing_sorted_descending (markdown : String → MdResult)
    (parseDate : String → Int) (files : List RemoteFile) :
    (Dropbox.listing markdown parseDate files).Pairwise
      (fun p q => q.date ≤ p.date) := by
  unfold Dropbox.listing
  rw [List.pairwise_reverse]
  have h := @List.sorted_mergeSort Post (fun a b => decide (a.date ≤ b.date))
    (fun a b c hab hbc => by
      simp only [decide_eq_true_eq] at hab hbc ⊢
      omega)
    (fun a b => by
      simp only [Bool.or_eq_true, decide_eq_true_eq]
      omega)
    (files.filterMap (postOfFile markdown parseDate))
  exact h.imp (fun hab => by simpa using hab)

/-- Auxiliary: a file only yields a post when its parsed metadata has both
a title and a date. -/
theorem postOfFile_some_meta (markdown : String → MdResult)
    (parseDate : String → Int) (f : RemoteFile) (p : Post)
    (hpf : postOfFile markdown parseDate f = some p) :
    (metaGet (markdown f.cont).meta "title").isSome ∧
    (metaGet (markdown f.cont).meta "date").isSome := by
  unfold postOfFile at hpf
  dsimp only at hpf
  cases h1 : metaGet (markdown f.cont).meta "title" with
  | none => rw [h1] at hpf; simp at hpf
  | some t =>
    cases h2 : metaGet (markdown f.cont).meta "date" with
    | none => rw [h1, h2] at hpf; simp at hpf
    | some d => simp [h1, h2]

/-- C7: every post in the output of `listing` comes from a file whose
parsed metadata has both a title and a date, and every file whose metadata
has both still yields its post in the output (files lacking a field are
skipped without making the whole listing fail). -/
theorem listing_skips_incomplete_metadata (markdown : String → MdResult)
    (parseDate : String → Int) (files : List RemoteFile) :
    (∀ p ∈ Dropbox.listing markdown parseDate files, ∃ f ∈ files,
        (metaGet (markdown f.cont).meta "title").isSome ∧
        (metaGet (markdown f.cont).meta "date").isSome ∧
        postOfFile markdown parseDate f = some p) ∧
    (∀ f ∈ files, ∀ p, postOfFile markdown parseDate f = some p →
        p ∈ Dropbox.listing markdown parseDate files) := by
  constructor
  · intro p hp
    unfold Dropbox.listing at hp
    simp only [List.mem_reverse, List.mem_mergeSort, List.mem_filterMap] at hp
    obtain ⟨f, hf, hpf⟩ := hp
    obtain ⟨h1, h2⟩ := postOfFile_some_meta markdown parseDate f p hpf
    exact ⟨f, hf, h1, h2, hpf⟩
  · intro f hf p hpf
    unfold Dropbox.listing
    simp only [List.mem_reverse, List.mem_mergeSort, List.mem_filterMap]
    exact ⟨f, hf, hpf⟩

/-- Witness for C7: one file with full metadata and one without; the
complete file's post is in the output. -/
theorem listing_skips_incomplete_metadata_witness :
    (⟨"/a", "T", 0, "H"⟩ : Post) ∈ Dropbox.listing
      (fun c => if c == "good" then ⟨"H", [("title", "T"), ("date", "D")]⟩
        else ⟨"H2", []⟩)
      (fun _ => 0) [⟨"/a.md", "good"⟩, ⟨"/b.md", "bad"⟩] :=
  (listing_skips_incomplete_metadata
      (fun c => if c == "good" then ⟨"H", [("title", "T"), ("date", "D")]⟩
        else ⟨"H2", []⟩)
      (fun _ => 0) [⟨"/a.md", "good"⟩, ⟨"/b.md", "bad"⟩]).2
    ⟨"/a.md", "good"⟩ (by decide) ⟨"/a", "T", 0, "H"⟩ (by decide)

/-- C5 counterexample: the claim fails when the entry stored under the key
is the empty string.  The entry exists (`get` returns it) and no
invalidation parameter is supplied, yet `if not content` treats it as a
miss: the handler is invoked and its fresh result is returned instead of
the cached entry. -/
theorem cached_empty_entry_recomputes :
    Store.get ⟨[("k", "")]⟩ "k" = some "" ∧
    uncacheHit none [] = false ∧
    (Cache.cached none ⟨[("k", "")]⟩ "k" [] (fun _ => "X")).invoked = true ∧
    (Cache.cached none ⟨[("k", "")]⟩ "k" [] (fun _ => "X")).content = "X" := by
  refine ⟨rfl, rfl, rfl, rfl⟩

/-- C5 (amended): for every cache key and request whose query does not
carry a matching invalidation parameter, if a nonempty entry exists in the
cache for that key, the wrapped handler returns the cached entry without
invoking the underlying computation.  (The original claim, quantified over
all existing entries, fails at the empty-string entry: Python `if not
content` treats it as a miss.) -/
theorem cached_hit_returns_without_invoking
    (uncache_key : Option String) (backend : Store) (ck : String)
    (kwargs : List (String × String)) (fn : Unit → String) (c : String)
    (hget : backend.get ck = some c) (hc : c ≠ "")
    (hmiss : uncacheHit uncache_key kwargs = false) :
    (Cache.cached uncache_key backend ck kwargs fn).content = c ∧
    (Cache.cached uncache_key backend ck kwargs fn).invoked = false := by
  unfold Cache.cached
  simp [hmiss, hget, truthy, hc]

/-- Witness for C5's amended theorem at a concrete nonempty cached
entry. -/
theorem cached_hit_returns_without_invoking_witness :
    (Cache.cached none ⟨[("k", "V")]⟩ "k" [] (fun _ => "X")).content = "V" ∧
    (Cache.cached none ⟨[("k", "V")]⟩ "k" [] (fun _ => "X")).invoked = false :=
  cached_hit_returns_without_invoking none ⟨[("k", "V")]⟩ "k" [] (fun _ => "X")
    "V" (by decide) (by decide) (by decide)

/-- C6: when the invalidation query parameter is present and equals the
configured secret, the wrapper deletes any existing entry for the key,
invokes the handler even if an entry was present, stores the fresh result
and returns it, so the new value overwrites the old. -/
theorem cached_invalidation_forces_recompute
    (uncache_key : Option String) (backend : Store) (ck : String)
    (kwargs : List (String × String)) (fn : Unit → String) (s : String)
    (hcfg : uncache_key = some s)
    (hparam : qget kwargs "uncache_key" = some s) :
    (Cache.cached uncache_key backend ck kwargs fn).deleted = true ∧
    (Cache.cached uncache_key backend ck kwargs fn).invoked = true ∧
    (Cache.cached uncache_key backend ck kwargs fn).content = fn () ∧
    (Cache.cached uncache_key backend ck kwargs fn).backend =
      (backend.delete ck).set ck (fn ()) ∧
    (Cache.cached uncache_key backend ck kwargs fn).backend.get ck
      = some (fn ()) := by
  have hhit : uncacheHit uncache_key kwargs = true := by
    unfold uncacheHit
    rw [hparam, hcfg]
    simp
  unfold Cache.cached
  simp [hhit, truthy, Store.get_set_self]

/-- Witness for C6: a present entry is overwritten by the fresh result
when the invalidation parameter matches the secret. -/
theorem cached_invalidation_forces_recompute_witness :
    (Cache.cached (some "sec") ⟨[("k", "old")]⟩ "k" [("uncache_key", "sec")]
        (fun _ => "new")).invoked = true ∧
    (Cache.cached (some "sec") ⟨[("k", "old")]⟩ "k" [("uncache_key", "sec")]
        (fun _ => "new")).backend.get "k" = some "new" :=
  have h := cached_invalidation_forces_recompute (some "sec") ⟨[("k", "old")]⟩
    "k" [("uncache_key", "sec")] (fun _ => "new") "sec" (by decide) (by decide)
  ⟨h.2.1, h.2.2.2.2⟩

/-- C9: when the invalidation secret is not configured (`none`), the guard
of the deletion branch is false for every request, whatever string is
supplied in the invalidation parameter, so the deletion branch of the
wrapper never runs. -/
theorem cached_delete_unreachable_without_secret
    (backend : Store) (ck : String) (kwargs : List (String × String))
    (fn : Unit → String) :
    uncacheHit none kwargs = false ∧
    (Cache.cached none backend ck kwargs fn).deleted = false := by
  have h : uncacheHit none kwargs = false := by
    unfold uncacheHit
    cases qget kwargs "uncache_key" <;> simp
  refine ⟨h, ?_⟩
  unfold Cache.cached
  simp only [h, Bool.false_eq_true, if_false]
  split <;> rfl

/-- C8: when the remote fetch for a post fails with a 404-status error,
the single-post handler raises a structured HTTPError 404 rather than
returning the generic diagnostic page; any other remote error yields the
generic diagnostic page. -/
theorem default_maps_remote_errors
    (fetch : Except ErrorResponse String) (render : String → String)
    (diag : ErrorResponse → String) (e : ErrorResponse)
    (hf : fetch = Except.error e) :
    (e.status = 404 →
      Markbox.default fetch render diag
        = HandlerResult.httpError 404 "File not found") ∧
    (e.status ≠ 404 →
      Markbox.default fetch render diag = HandlerResult.errorPage (diag e)) := by
  subst hf
  constructor
  · intro h404
    simp [Markbox.default, h404]
  · intro hother
    simp [Markbox.default, hother]

/-- Witness for C8 at a 404-status error and at a 500-status error. -/
theorem default_maps_remote_errors_witness :
    Markbox.default (Except.error ⟨404⟩) (fun x => x) (fun _ => "D")
      = HandlerResult.httpError 404 "File not found" ∧
    Markbox.default (Except.error ⟨500⟩) (fun x => x) (fun _ => "D")
      = HandlerResult.errorPage "D" :=
  ⟨(default_maps_remote_errors _ _ _ ⟨404⟩ rfl).1 rfl,
    (default_maps_remote_errors _ _ _ ⟨500⟩ rfl).2 (by decide)⟩

/-- C10: a durable token file whose bare open fails yields `none` from
`read_file` instead of an I/O error, and consequently `connect` with an
empty cache and failing reads for both token files does not fail: it
proceeds to the callback-exchange branch when the query carries
`oauth_token`, and to the redirect branch otherwise. -/
theorem read_file_absorbs_io_error
    (sess : RemoteSession) (currentUrl : String) (fs : Fs)
    (query : List (String × String)) (e1 e2 : FileErr)
    (h1 : openRead fs ".s_token" = Except.error e1)
    (h2 : openRead fs ".s_token_secret" = Except.error e2) :
    read_file fs ".s_token" = none ∧
    read_file fs ".s_token_secret" = none ∧
    (qcontains query "oauth_token" = true →
      (Dropbox.connect sess currentUrl none Store.empty fs query).res
          = ConnectResult.authorized ∧
      (Dropbox.connect sess currentUrl none Store.empty fs query).calls
          = [NetCall.obtainAccessToken]) ∧
    (qcontains query "oauth_token" = false →
      (∃ u, (Dropbox.connect sess currentUrl none Store.empty fs query).res
          = ConnectResult.redirect u) ∧
      (Dropbox.connect sess currentUrl none Store.empty fs query).calls
          = [NetCall.obtainRequestToken]) := by
  have hr1 : read_file fs ".s_token" = none := by
    unfold read_file
    rw [h1]
  have hr2 : read_file fs ".s_token_secret" = none := by
    unfold read_file
    rw [h2]
  refine ⟨hr1, hr2, ?_, ?_⟩
  · intro hq
    unfold Dropbox.connect
    simp [pyOr, truthy, hr1, hr2, Store.get_empty, hq]
  · intro hq
    unfold Dropbox.connect
    simp [pyOr, truthy, hr1, hr2, Store.get_empty, hq]

/-- Witness for C10 on an empty filesystem and an empty query: the
redirect branch is taken and no file error occurs. -/
theorem read_file_absorbs_io_error_witness :
    read_file ⟨[]⟩ ".s_token" = none ∧
    (∃ u, (Dropbox.connect ⟨⟨"RK", "RS"⟩, fun _ _ => ⟨"AK", "AS"⟩, fun _ u => u⟩
        "http://x/" none Store.empty ⟨[]⟩ []).res = ConnectResult.redirect u) ∧
    (Dropbox.connect ⟨⟨"RK", "RS"⟩, fun _ _ => ⟨"AK", "AS"⟩, fun _ u => u⟩
        "http://x/" none Store.empty ⟨[]⟩ []).calls
      = [NetCall.obtainRequestToken] :=
  have h := read_file_absorbs_io_error
    ⟨⟨"RK", "RS"⟩, fun _ _ => ⟨"AK", "AS"⟩, fun _ u => u⟩ "http://x/" ⟨[]⟩ []
    FileErr.ioError FileErr.ioError rfl rfl
  ⟨h.1, (h.2.2.2 rfl).1, (h.2.2.2 rfl).2⟩
